import Mathlib

/-!
Shallow embedding of the classification / invalidation / display engine of
`multipatch_analysis` (files `analyses/connectivity.py` and
`analyses/crosstalk_removal.py`), together with theorems settling the
frozen claims about it.

Python `float` arithmetic is embedded as exact rational arithmetic (`ℚ`);
the constants involved (128, 220, 255, 384, 0.6, 0.8, confidence weights)
are all exactly representable, so no rounding behaviour is lost for the
properties considered here.
-/

namespace Multipatch

instance {ε α : Type} [DecidableEq ε] [DecidableEq α] :
    DecidableEq (Except ε α)
  | Except.error e, Except.error f =>
    if h : e = f then isTrue (by rw [h])
    else isFalse (by intro hc; cases hc; exact h rfl)
  | Except.error _, Except.ok _ => isFalse (by intro hc; cases hc)
  | Except.ok _, Except.error _ => isFalse (by intro hc; cases hc)
  | Except.ok a, Except.ok b =>
    if h : a = b then isTrue (by rw [h])
    else isFalse (by intro hc; cases hc; exact h rfl)

/-- A value stored in a result dictionary (`Matrix Element Result`).
`null` is Python `None`; `interval` is a `(lower, upper)` 2-tuple as used
for confidence-interval fields; `num` covers the scalar numeric fields. -/
inductive FieldVal where
  | null
  | num (q : ℚ)
  | boolean (b : Bool)
  | interval (lower upper : ℚ)
deriving DecidableEq, Repr

/-- A Matrix Element Result: a finite dictionary from field names to values,
as produced by an analyzer's `measure` for one (pre class, post class) bucket. -/
abbrev ResultDict : Type := List (String × FieldVal)

/-- Python dictionary lookup `result[k]`: a missing key raises `KeyError`. -/
def lookupField (r : ResultDict) (k : String) : Except String FieldVal :=
  match r.find? (fun p => p.1 = k) with
  | some p => Except.ok p.2
  | none => Except.error ("KeyError: " ++ k)

/-- Python `np.isscalar` on the embedded values: numbers and booleans are scalar,
`None` and tuples are not. -/
def isScalarVal : FieldVal → Bool
  | FieldVal.num _ => true
  | FieldVal.boolean _ => true
  | FieldVal.null => false
  | FieldVal.interval _ _ => false

/-- Python `mappable_result = {k: v for k, v in result.items() if np.isscalar(v)}`
(connectivity.py line 195). -/
def mappableResult (r : ResultDict) : List (String × FieldVal) :=
  r.filter (fun p => isScalarVal p.2)

/-- An RGBA (or RGB) color as a list of channel values, one of the
`np.array` color vectors of connectivity.py. -/
abbrev Color : Type := List ℚ

/-- Scalar multiplication of a numpy color vector, `color * confidence`. -/
def scaleColor (c : Color) (q : ℚ) : Color := c.map (fun x => x * q)

/-- Elementwise sum of two numpy color vectors. -/
def addColor (a b : Color) : Color := List.zipWith (fun x y => x + y) a b

/-- Python `sum(color[:3])`: the sum of the first three (red, green, blue) channels. -/
def sumFirst3 (c : Color) : ℚ := (c.take 3).foldl (fun x y => x + y) 0

/-- Python `np.array([128., 128., 128., 255.])`, the neutral gray used when a
confidence field is present (connectivity.py line 185). -/
def default_bgcolor_conf : Color := [128, 128, 128, 255]

/-- Python `np.array([220., 220., 220.])`, the neutral gray used when no
confidence field is present (connectivity.py line 188). -/
def default_bgcolor_noconf : Color := [220, 220, 220]

/-- The literal character with code 123 (opening curly bracket). -/
def lbrace : Char := Char.ofNat 123

/-- The literal character with code 125 (closing curly bracket). -/
def rbrace : Char := Char.ofNat 125

/-- Scan up to the matching closing bracket of a format placeholder,
returning the placeholder body and the remainder of the template. -/
def splitAtBrace : List Char → Option (List Char × List Char)
  | [] => none
  | c :: cs =>
    if c = rbrace then some ([], cs)
    else
      match splitAtBrace cs with
      | some (a, b) => some (c :: a, b)
      | none => none

/-- The field name of a placeholder body: the part before any format spec
or conversion marker. -/
def fieldOfPlaceholder (ph : List Char) : String :=
  String.mk (ph.takeWhile (fun ch => ch ≠ ':' && ch ≠ '!'))

/-- Rendering of one field value substituted into the template. The exact
digit formatting of Python format specs is not needed by any claim; only
success or `KeyError` is. -/
def renderField : FieldVal → String
  | FieldVal.null => "None"
  | FieldVal.num q => toString q
  | FieldVal.boolean b => if b then "True" else "False"
  | FieldVal.interval l u => "(" ++ toString l ++ ", " ++ toString u ++ ")"

/-- Fuelled scan of a template string: literal characters are copied,
each placeholder is looked up in the result dictionary (`KeyError` on an
unknown field, exactly as `str.format(**result)` behaves at render time). -/
def formatAux (r : ResultDict) : Nat → List Char → Except String String
  | 0, _ => Except.error "format: out of fuel"
  | _, [] => Except.ok ""
  | fuel + 1, c :: cs =>
    if c = lbrace then
      match splitAtBrace cs with
      | none => Except.error "ValueError: unmatched bracket in format string"
      | some (ph, rest) =>
        match lookupField r (fieldOfPlaceholder ph) with
        | Except.error e => Except.error e
        | Except.ok v =>
          match formatAux r fuel rest with
          | Except.error e => Except.error e
          | Except.ok tail => Except.ok (renderField v ++ tail)
    else
      match formatAux r fuel cs with
      | Except.error e => Except.error e
      | Except.ok tail => Except.ok (String.singleton c ++ tail)

/-- Python `text_format.format(**result)` (connectivity.py line 206): format the
user-configured template against the result's field mapping. -/
def formatTemplate (tmpl : String) (r : ResultDict) : Except String String :=
  formatAux r (tmpl.length + 1) tmpl.data

/-- Foreground color values used by `element_display_output`:
the strings `w` and `k`, and the gray level `0.6`. -/
inductive FgColor where
  | w
  | k
  | shade (q : ℚ)
deriving DecidableEq, Repr

/-- The display output dictionary built by `element_display_output`:
keys `bordercolor`, `bgcolor`, `fgcolor`, `text`. -/
structure ElementOutput where
  bordercolor : ℚ
  bgcolor : Color
  fgcolor : FgColor
  text : String
deriving DecidableEq

/-- State of the `DisplayFilter` object: the cached `self.output` and the
values of its parameter tree (`Text format`, `Show Confidence`, `log_scale`,
and the `ColorMapParameter` field list with its selected color-by field). -/
structure DisplayFilter where
  output : Option ElementOutput
  text_format : String
  show_confidence : String
  log_scale : Bool
  color_fields : List String
  color_by : String
deriving DecidableEq

/-- Python `lower, upper = result[show_confidence]` followed by the confidence
blend (connectivity.py lines 199-202). A `None` confidence value skips the
blend; unpacking a non-tuple value is a Python `TypeError`. -/
def blendConfidence (confVal : FieldVal) (base default_bg : Color) :
    Except String Color :=
  if confVal = FieldVal.null then Except.ok base
  else
    match confVal with
    | FieldVal.interval lower upper =>
      let confidence : ℚ := (1 - (upper - lower)) ^ 2
      Except.ok (addColor (scaleColor base confidence)
        (scaleColor default_bg (1 - confidence)))
    | _ => Except.error "TypeError: cannot unpack non-sequence"

/-- The computation performed by `DisplayFilter.element_display_output`
(connectivity.py lines 178-209), as a function of the configuration values
it reads and of the external color-scale provider `cmap`
(`self.colorMap.map(...)[0]`). Exceptions (`KeyError` on missing result
fields, `TypeError` on a malformed confidence value) are `Except.error`. -/
def element_display_calc (cmap : List (String × FieldVal) → Color)
    (show_conf text_fmt : String) (result : ResultDict) :
    Except String ElementOutput :=
  match lookupField result show_conf with
  | Except.error e => Except.error e
  | Except.ok confVal =>
    let border : ℚ := if confVal ≠ FieldVal.null then 3/5 else 4/5
    let default_bg : Color :=
      if confVal ≠ FieldVal.null then default_bgcolor_conf
      else default_bgcolor_noconf
    match lookupField result "no_data" with
    | Except.error e => Except.error e
    | Except.ok noData =>
      if noData = FieldVal.boolean true then
        Except.ok { bordercolor := border, bgcolor := default_bg,
                    fgcolor := FgColor.shade (3/5), text := "" }
      else
        let base := cmap (mappableResult result)
        match blendConfidence confVal base default_bg with
        | Except.error e => Except.error e
        | Except.ok color =>
          match formatTemplate text_fmt result with
          | Except.error e => Except.error e
          | Except.ok text =>
            Except.ok { bordercolor := border, bgcolor := color,
                        fgcolor := if sumFirst3 color < 384 then FgColor.w
                                   else FgColor.k,
                        text := text }

/-- Python `DisplayFilter.element_display_output`: runs the display computation on
the current configuration, stores the result into `self.output` and returns
it. Note that the method never reads the cached `self.output`; it recomputes
on every call. -/
def DisplayFilter.element_display_output
    (cmap : List (String × FieldVal) → Color) (s : DisplayFilter)
    (result : ResultDict) : Except String (ElementOutput × DisplayFilter) :=
  (element_display_calc cmap s.show_confidence s.text_format result).map
    (fun out => (out, { s with output := some out }))

/-- Python `DisplayFilter.invalidate_output` (connectivity.py lines 212-213):
clears the cached output. The returned boolean records whether the body
emits `sigOutputChanged`; this body does not. -/
def DisplayFilter.invalidate_output (s : DisplayFilter) :
    DisplayFilter × Bool :=
  ({ s with output := none }, false)

/-- The `(field_spec, defaults)` pair returned by an analyzer's
`output_fields()`: which fields can be color-mapped and which confidence
options exist. -/
structure DisplayFields where
  color_by : List String
  show_confidence : List String
deriving DecidableEq

/-- The default display selection returned by an analyzer's
`output_fields()`. -/
structure FieldDefaults where
  color_by : String
  text : String
  show_confidence : String
  log : Bool
deriving DecidableEq

/-- Python `DisplayFilter.set_display_fields` (connectivity.py lines 135-150):
rebuilds the display parameter tree from an analyzer's field spec and
defaults. The template string is stored as-is; no validation of its
placeholder names happens here. -/
def DisplayFilter.set_display_fields (s : DisplayFilter)
    (display_fields : DisplayFields) (defaults : FieldDefaults) :
    DisplayFilter :=
  { s with color_fields := display_fields.color_by,
           color_by := defaults.color_by,
           text_format := defaults.text,
           show_confidence := defaults.show_confidence,
           log_scale := defaults.log }

/-- One pair record returned by the pair source, carrying the experiment
attributes the three filter dimensions apply to. -/
structure PairRec where
  recId : Nat
  project_name : String
  acsf : String
  internal : String
deriving DecidableEq, Repr

/-- The names of the checked (`value() is True`) children of one filter
group of the parameter tree. -/
def selectedNames (sel : List (String × Bool)) : List String :=
  (sel.filter (fun p => p.2 = true)).map (fun p => p.1)

/-- Python `names if len(names) > 0 else None` (connectivity.py lines 81, 83, 85). -/
def noneIfEmpty (l : List String) : Option (List String) :=
  if l.length > 0 then some l else none

/-- Modelled from the spec: `query_pairs` is imported from
`multipatch_analysis.connectivity`, which is not under `src/`. Per the
external-interface contract it is the pair source
`query_pairs(project_filter?, acsf_filter?, internal_filter?)`, where an
absent (`None`) filter means no restriction on that dimension and a present
filter restricts the dimension to the given values. The database session is
embedded as the list of available records. -/
def query_pairs (project_name acsf internal : Option (List String))
    (dbase : List PairRec) : List PairRec :=
  dbase.filter (fun r =>
    (match project_name with
     | none => true
     | some l => l.contains r.project_name) &&
    (match acsf with
     | none => true
     | some l => l.contains r.acsf) &&
    (match internal with
     | none => true
     | some l => l.contains r.internal))

/-- State of the `ExperimentFilter` object: the cached `self.pairs` and the
boolean children of the three filter groups of its parameter tree
(`Projects`, `ACSF`, `Internal`). -/
structure ExperimentFilter where
  projects : List (String × Bool)
  acsf : List (String × Bool)
  internal : List (String × Bool)
  pairs : Option (List PairRec)
deriving DecidableEq, Repr

/-- Python `ExperimentFilter.get_pair_list` (connectivity.py lines 75-87): if the
cache is absent, collect the checked names of each filter group (an empty
selection is passed as `None`), query the pair source and cache the result;
otherwise return the cached list. -/
def ExperimentFilter.get_pair_list (dbase : List PairRec)
    (s : ExperimentFilter) : List PairRec × ExperimentFilter :=
  match s.pairs with
  | some p => (p, s)
  | none =>
    let project_names := noneIfEmpty (selectedNames s.projects)
    let acsf_recipes := noneIfEmpty (selectedNames s.acsf)
    let internal_recipes := noneIfEmpty (selectedNames s.internal)
    let ps := query_pairs project_names acsf_recipes internal_recipes dbase
    (ps, { s with pairs := some ps })

/-- Python `ExperimentFilter.invalidate_output` (connectivity.py lines 89-91):
clears the cached pair list and emits `sigOutputChanged` (the returned
boolean records that the body does emit). -/
def ExperimentFilter.invalidate_output (s : ExperimentFilter) :
    ExperimentFilter × Bool :=
  ({ s with pairs := none }, true)

/-- A cell class: the keyword dictionary handed to the `CellClass`
constructor (attribute name to accepted value). The classifier internals
are not needed by the claims, only the identity of the constructed list. -/
structure CellClass where
  spec : List (String × String)
deriving DecidableEq, Repr

/-- The cell group table built by `classify_cells`: class to member cell
ids. Its contents are produced by the external classifier. -/
abbrev CellGroups : Type := List (CellClass × List Nat)

/-- State of the `CellClassFilter` object: the cached `self.cell_groups`
and `self.cell_classes`, and the boolean children of its `Cell Classes`
parameter group. -/
structure CellClassFilter where
  selection : List (String × Bool)
  cell_groups : Option CellGroups
  cell_classes : Option (List CellClass)
deriving DecidableEq

/-- Python `CellClassFilter.get_cell_groups` (connectivity.py lines 106-118): if
the cache is absent, gather the class specs of every checked group from
the module-level `cell_class_groups` table, build the `CellClass` objects,
classify the cells and cache both results; otherwise return the cached
values. `class_groups` embeds the module-level table and `classify_cells`
the classifier imported from `multipatch_analysis.cell_class`. -/
def CellClassFilter.get_cell_groups
    (class_groups : String → List (List (String × String)))
    (classify_cells : List CellClass → List PairRec → CellGroups)
    (pairs : List PairRec) (s : CellClassFilter) :
    (Option CellGroups × Option (List CellClass)) × CellClassFilter :=
  if s.cell_groups.isSome then ((s.cell_groups, s.cell_classes), s)
  else
    let specs := (s.selection.filter (fun p => p.2 = true)).flatMap
      (fun g => class_groups g.1)
    let classes := specs.map CellClass.mk
    let groups := classify_cells classes pairs
    ((some groups, some classes),
     { s with cell_groups := some groups, cell_classes := some classes })

/-- Python `CellClassFilter.invalidate_output` (connectivity.py lines 120-122):
clears both cached values. The body contains no
`self.sigOutputChanged.emit(self)` call, so the returned boolean is
`false`: no listener of this node's signal is notified. -/
def CellClassFilter.invalidate_output (s : CellClassFilter) :
    CellClassFilter × Bool :=
  ({ s with cell_groups := none, cell_classes := none }, false)

/-- The result table produced by an analyzer's `measure`: one Matrix
Element Result per (pre class, post class) bucket. -/
abbrev ResultsTable : Type := List ((CellClass × CellClass) × ResultDict)

/-- Modelled from the spec: the analyzer classes `ConnectivityAnalyzer`,
`StrengthAnalyzer` and `DynamicsAnalyzer` are imported from
`multipatch_analysis.connectivity`, which is not under `src/`. Per the
plugin contract each class declares `output_fields() -> (fields, defaults)`;
this record carries that declaration for one registered analyzer class. -/
structure AnalyzerClass where
  fields : DisplayFields
  defaults : FieldDefaults
deriving DecidableEq

/-- Modelled from the spec: one instantiated analyzer strategy. Per the
invalidation-graph contract it owns a cached result table, cleared by its
`invalidate_output`, which also emits `sigOutputChanged`. `instId`
distinguishes instances so listener edges of discarded instances can be
told apart from edges of the current one. -/
structure AnalyzerInstance where
  instId : Nat
  name : String
  results : Option ResultsTable
deriving DecidableEq

/-- Modelled from the spec: the active analyzer's `invalidate_output`
clears its cached result table and notifies its listeners (the analyzer is
an invalidation node per the dependency-graph contract). -/
def AnalyzerInstance.invalidate_output (a : AnalyzerInstance) :
    AnalyzerInstance × Bool :=
  ({ a with results := none }, true)

/-- The two listener edges that are rewired on every analyzer swap:
`cell_class_filter.sigOutputChanged -> analysis.invalidate_output` and
`analysis.sigOutputChanged -> display_filter.invalidate_output`. Each edge
is tagged with the `instId` of the analyzer instance it was created for. -/
inductive EdgeKind where
  | ccfToAnalysis
  | analysisToDf
deriving DecidableEq, Repr

/-- State of the `MatrixAnalyzer` driver: the three filter nodes, the
active analyzer instance, the engine-level cached result table
`self.results`, and the analyzer-tagged listener edges currently
connected. `nextId` supplies fresh instance ids. -/
structure MatrixAnalyzer where
  experiment_filter : ExperimentFilter
  cell_class_filter : CellClassFilter
  display_filter : DisplayFilter
  analysis : Option AnalyzerInstance
  results : Option ResultsTable
  edges : List (EdgeKind × Nat)
  nextId : Nat
deriving DecidableEq

/-- Invalidation arriving at the display filter node: run
`DisplayFilter.invalidate_output`. Its body emits nothing, so the
`update_matrix_display` slot connected to `display_filter.sigOutputChanged`
(connectivity.py line 298) is not run. -/
def dispatchDf (s : MatrixAnalyzer) : MatrixAnalyzer :=
  let (df, _emitted) := s.display_filter.invalidate_output
  { s with display_filter := df }

/-- Invalidation arriving at the active analyzer node: run its
`invalidate_output`; since that emits `sigOutputChanged`, forward to the
display filter when the corresponding listener edge is connected. -/
def dispatchAnalysis (s : MatrixAnalyzer) : MatrixAnalyzer :=
  match s.analysis with
  | none => s
  | some a =>
    let (a', emitted) := a.invalidate_output
    let s' := { s with analysis := some a' }
    if emitted && s'.edges.contains (EdgeKind.analysisToDf, a'.instId) then
      dispatchDf s'
    else s'

/-- Invalidation arriving at the cell class filter node: run
`CellClassFilter.invalidate_output`. Its body emits nothing, so the
`analysis.invalidate_output` slot connected to
`cell_class_filter.sigOutputChanged` (connectivity.py lines 307, 324) is
only run if the body had emitted. -/
def dispatchCcf (s : MatrixAnalyzer) : MatrixAnalyzer :=
  let (ccf, emitted) := s.cell_class_filter.invalidate_output
  let s' := { s with cell_class_filter := ccf }
  if emitted then
    match s'.analysis with
    | some a =>
      if s'.edges.contains (EdgeKind.ccfToAnalysis, a.instId) then
        dispatchAnalysis s'
      else s'
    | none => s'
  else s'

/-- A configuration change on the experiment filter (its
`params.sigTreeStateChanged` slot): run
`ExperimentFilter.invalidate_output`; its body emits `sigOutputChanged`,
whose listener `cell_class_filter.invalidate_output` was connected in
`MatrixAnalyzer.__init__` (connectivity.py line 296). -/
def dispatchEf (s : MatrixAnalyzer) : MatrixAnalyzer :=
  let (ef, emitted) := s.experiment_filter.invalidate_output
  let s' := { s with experiment_filter := ef }
  if emitted then dispatchCcf s' else s'

/-- The analyzer registry literal of `MatrixAnalyzer.analyzerChanged`
(connectivity.py lines 317-321), parameterized by the three analyzer
classes, which live outside `src/`. -/
def available_analyzers (conn strength dynamics : AnalyzerClass) :
    String → Option AnalyzerClass :=
  fun nm =>
    if nm = "Connectivity" then some conn
    else if nm = "Strength & Kinetics" then some strength
    else if nm = "Dynamics" then some dynamics
    else none

/-- Python `MatrixAnalyzer.analyzerChanged` (connectivity.py lines 311-331):
first disconnect the two listener edges of the current analyzer instance
(when one is active), then instantiate the newly selected analyzer class
(`none` on an unregistered name, the dictionary `KeyError`), connect the
new instance's edges, and rebuild the display filter's field options from
the new instance's `output_fields()`. The engine-level `self.results` is
not touched by the method. -/
def MatrixAnalyzer.analyzerChanged (conn strength dynamics : AnalyzerClass)
    (selected : String) (s : MatrixAnalyzer) : Option MatrixAnalyzer :=
  let s1 :=
    match s.analysis with
    | some a => { s with edges := s.edges.filter (fun e => e.2 ≠ a.instId) }
    | none => s
  match available_analyzers conn strength dynamics selected with
  | none => none
  | some cls =>
    let a : AnalyzerInstance :=
      { instId := s1.nextId, name := selected, results := none }
    let s2 := { s1 with
      analysis := some a,
      nextId := s1.nextId + 1,
      edges := (EdgeKind.analysisToDf, a.instId) ::
               (EdgeKind.ccfToAnalysis, a.instId) :: s1.edges }
    some { s2 with
      display_filter :=
        s2.display_filter.set_display_fields cls.fields cls.defaults }

/-- A regularly sampled timeseries, embedding the external
`neuroanalysis.data` trace objects: start time `t0`, sample period `dt`
and sample values. The time of sample `i` is `t0 + i * dt`. -/
structure TSeries where
  t0 : ℚ
  dt : ℚ
  data : List ℚ
deriving DecidableEq, Repr

/-- Python `ts.time_slice(start, stop)` of the external trace type: the samples
whose time lies in `[start, stop)`, keeping their original timing. -/
def TSeries.time_slice (ts : TSeries) (start stop : ℚ) : TSeries :=
  let keep := (List.range ts.data.length).filter (fun (i : ℕ) =>
    decide (start ≤ ts.t0 + (i : ℚ) * ts.dt) &&
    decide (ts.t0 + (i : ℚ) * ts.dt < stop))
  { t0 := match keep.head? with
          | some i => ts.t0 + (i : ℚ) * ts.dt
          | none => ts.t0,
    dt := ts.dt,
    data := keep.map (fun i => ts.data.getD i 0) }

/-- Python `ts - baseline`: subtract a constant from every sample. -/
def TSeries.subConst (ts : TSeries) (c : ℚ) : TSeries :=
  { ts with data := ts.data.map (fun x => x - c) }

/-- Python `ts.copy(t0=...)`: the same samples with a new start time. -/
def TSeries.copyT0 (ts : TSeries) (t0' : ℚ) : TSeries :=
  { ts with t0 := t0' }

/-- Python `np.median` on the embedded samples: middle of the sorted list, mean
of the two middle elements for even length. (`np.median` of an empty array
is NaN; the value 0 stands in for it and is never reached by any theorem
below.) -/
def npMedian (l : List ℚ) : ℚ :=
  let s := List.insertionSort (fun a b => a ≤ b) l
  let n := l.length
  if n = 0 then 0
  else if n % 2 = 1 then s.getD (n / 2) 0
  else (s.getD (n / 2 - 1) 0 + s.getD (n / 2) 0) / 2

/-- The evoked spike record reached through
`sr.stim_pulse.stim_spike.max_dvdt_time` (crosstalk_removal.py line 50). -/
structure StimSpike where
  max_dvdt_time : ℚ
deriving DecidableEq, Repr

/-- The stimulus pulse record reached through `sr.stim_pulse`. -/
structure StimPulse where
  onset_time : ℚ
  stim_spike : StimSpike
deriving DecidableEq, Repr

/-- One stimulus-response record: the three per-record timeseries and the
stimulus pulse metadata used by `get_tseries`. -/
structure StimResponse where
  stim_tseries : TSeries
  pre_tseries : TSeries
  post_tseries : TSeries
  stim_pulse : StimPulse
deriving DecidableEq, Repr

/-- Python `getattr(sr, series + "_tseries")` for the three series names the
preceding assert allows (crosstalk_removal.py line 40). -/
def StimResponse.series_tseries (sr : StimResponse) (series : String) :
    TSeries :=
  if series = "stim" then sr.stim_tseries
  else if series = "pre" then sr.pre_tseries
  else sr.post_tseries

/-- The baseline-subtraction step of the `get_tseries` loop
(crosstalk_removal.py lines 41-45): when `bsub` is set, subtract the
median over `[onset + window.1, onset + window.2)` from the selected
timeseries. -/
def bsubApplied (series : String) (bsub : Bool) (bsub_window : ℚ × ℚ)
    (sr : StimResponse) : TSeries :=
  let ts := sr.series_tseries series
  if bsub then
    let bstart := sr.stim_pulse.onset_time + bsub_window.1
    let bstop := sr.stim_pulse.onset_time + bsub_window.2
    let baseline := npMedian (ts.time_slice bstart bstop).data
    ts.subConst baseline
  else ts

/-- The alignment time used for each record: the stimulus onset for mode
`stim`, the evoked-spike maximum-dV/dt time for mode `spike`. -/
def alignTime (a : String) (sr : StimResponse) : ℚ :=
  if a = "stim" then sr.stim_pulse.onset_time
  else sr.stim_pulse.stim_spike.max_dvdt_time

/-- The body of the `get_tseries` loop for one record (crosstalk_removal.py
lines 40-54): optional baseline subtraction, then optional time alignment;
an unrecognized alignment mode raises
`ValueError("invalid time alignment mode %r" % align)`. -/
def processOne (series : String) (bsub : Bool) (align : Option String)
    (bsub_window : ℚ × ℚ) (sr : StimResponse) : Except String TSeries :=
  let ts := bsubApplied series bsub bsub_window sr
  match align with
  | none => Except.ok ts
  | some a =>
    if a = "stim" then
      Except.ok (ts.copyT0 (ts.t0 - sr.stim_pulse.onset_time))
    else if a = "spike" then
      Except.ok (ts.copyT0 (ts.t0 - sr.stim_pulse.stim_spike.max_dvdt_time))
    else
      Except.error ("invalid time alignment mode \x27" ++ a ++ "\x27")

/-- The `for i, sr in enumerate(...)` accumulation of `get_tseries`: apply
the loop body to each record in order, stopping at the first raised
exception. -/
def mapExcept {α β : Type} (f : α → Except String β) :
    List α → Except String (List β)
  | [] => Except.ok []
  | x :: xs =>
    match f x with
    | Except.error e => Except.error e
    | Except.ok b =>
      match mapExcept f xs with
      | Except.error e => Except.error e
      | Except.ok bs => Except.ok (b :: bs)

/-- Python `StimResponseList.get_tseries` (crosstalk_removal.py lines 29-55):
assert the series name, then process the records of `self.srs[:10]` in
order, stopping at the first raised exception. -/
def StimResponseList.get_tseries (srs : List StimResponse) (series : String)
    (bsub : Bool) (align : Option String) (bsub_window : ℚ × ℚ) :
    Except String (List TSeries) :=
  if series = "stim" ∨ series = "pre" ∨ series = "post" then
    mapExcept (processOne series bsub align bsub_window) (srs.take 10)
  else
    Except.error
      "AssertionError: series must be one of \x27stim\x27, \x27pre\x27, or \x27post\x27"

/-- A boolean contiguous-substring test, used to state what an error
message does and does not mention. -/
def hasSubstr (sub : List Char) : List Char → Bool
  | [] => sub.isEmpty
  | c :: cs => List.isPrefixOf sub (c :: cs) || hasSubstr sub cs

lemma scaleColor_one (c : Color) : scaleColor c 1 = c := by
  simp [scaleColor]

lemma scaleColor_zero (c : Color) : scaleColor c 0 = List.replicate c.length 0 := by
  induction c with
  | nil => rfl
  | cons x xs _ => simp [scaleColor, List.replicate]

lemma addColor_zero_right (c : Color) :
    addColor c (List.replicate c.length 0) = c := by
  induction c with
  | nil => rfl
  | cons x xs ih => simpa [addColor, List.replicate] using ih

lemma addColor_zero_left (c : Color) :
    addColor (List.replicate c.length 0) c = c := by
  induction c with
  | nil => rfl
  | cons x xs ih => simpa [addColor, List.replicate] using ih

/-- Success-shape inversion for `element_display_calc`: a returned output
comes either from the `no_data` branch (fixed neutral output) or from the
color-mapping branch (blended color, contrast foreground, formatted text). -/
lemma element_display_calc_ok_elim
    (cmap : List (String × FieldVal) → Color) (sc tf : String)
    (r : ResultDict) (out : ElementOutput)
    (h : element_display_calc cmap sc tf r = Except.ok out) :
    ∃ confVal noData, lookupField r sc = Except.ok confVal ∧
      lookupField r "no_data" = Except.ok noData ∧
      ((noData = FieldVal.boolean true ∧
        out = { bordercolor := if confVal ≠ FieldVal.null then 3/5 else 4/5,
                bgcolor := if confVal ≠ FieldVal.null then default_bgcolor_conf
                           else default_bgcolor_noconf,
                fgcolor := FgColor.shade (3/5), text := "" }) ∨
       (noData ≠ FieldVal.boolean true ∧ ∃ color text,
          blendConfidence confVal (cmap (mappableResult r))
            (if confVal ≠ FieldVal.null then default_bgcolor_conf
             else default_bgcolor_noconf) = Except.ok color ∧
          formatTemplate tf r = Except.ok text ∧
          out = { bordercolor := if confVal ≠ FieldVal.null then 3/5 else 4/5,
                  bgcolor := color,
                  fgcolor := if sumFirst3 color < 384 then FgColor.w
                             else FgColor.k,
                  text := text })) := by
  unfold element_display_calc at h
  cases hsc : lookupField r sc with
  | error e => rw [hsc] at h; cases h
  | ok confVal =>
    rw [hsc] at h
    dsimp only at h
    cases hn : lookupField r "no_data" with
    | error e => rw [hn] at h; cases h
    | ok noData =>
      rw [hn] at h
      dsimp only at h
      refine ⟨confVal, noData, rfl, rfl, ?_⟩
      by_cases hb : noData = FieldVal.boolean true
      · rw [if_pos hb] at h
        cases h
        exact Or.inl ⟨hb, rfl⟩
      · rw [if_neg hb] at h
        cases hbc : blendConfidence confVal (cmap (mappableResult r))
            (if confVal ≠ FieldVal.null then default_bgcolor_conf
             else default_bgcolor_noconf) with
        | error e => rw [hbc] at h; cases h
        | ok color =>
          rw [hbc] at h
          dsimp only at h
          cases hft : formatTemplate tf r with
          | error e => rw [hft] at h; cases h
          | ok text =>
            rw [hft] at h
            cases h
            exact Or.inr ⟨hb, color, text, rfl, rfl, rfl⟩

/-- Success of `element_display_output` projects to success of the
underlying calculation. -/
lemma element_display_output_ok_elim
    (cmap : List (String × FieldVal) → Color) (s : DisplayFilter)
    (r : ResultDict) (out : ElementOutput) (s' : DisplayFilter)
    (h : s.element_display_output cmap r = Except.ok (out, s')) :
    element_display_calc cmap s.show_confidence s.text_format r =
      Except.ok out := by
  unfold DisplayFilter.element_display_output at h
  cases hc : element_display_calc cmap s.show_confidence s.text_format r with
  | error e => rw [hc] at h; cases h
  | ok o => rw [hc] at h; simp [Except.map] at h; rw [h.1]

/-- The fixed output produced by the `no_data` branch of
`element_display_output` for a given confidence-field value. -/
def noDataOutput (confVal : FieldVal) : ElementOutput :=
  { bordercolor := if confVal ≠ FieldVal.null then 3/5 else 4/5,
    bgcolor := if confVal ≠ FieldVal.null then default_bgcolor_conf
               else default_bgcolor_noconf,
    fgcolor := FgColor.shade (3/5), text := "" }

/-- Evaluation of `element_display_calc` on a result with `no_data` set. -/
lemma element_display_calc_no_data
    (cmap : List (String × FieldVal) → Color) (sc tf : String)
    (r : ResultDict) (confVal : FieldVal)
    (hcv : lookupField r sc = Except.ok confVal)
    (hnd : lookupField r "no_data" = Except.ok (FieldVal.boolean true)) :
    element_display_calc cmap sc tf r = Except.ok (noDataOutput confVal) := by
  unfold element_display_calc
  rw [hcv]
  dsimp only
  rw [hnd]
  dsimp only
  rw [if_pos rfl]
  rfl

/-- Claim C3: for every rendered matrix element whose result does not have
`no_data` set, the foreground color is white exactly when the sum of the
final background color's red, green and blue channels is strictly below
384, and black exactly when that sum is at least 384 (so a sum of exactly
384 yields black). -/
theorem C3_fgcolor_contrast (cmap : List (String × FieldVal) → Color)
    (s : DisplayFilter) (r : ResultDict) (out : ElementOutput)
    (s' : DisplayFilter)
    (hnd : lookupField r "no_data" ≠ Except.ok (FieldVal.boolean true))
    (h : s.element_display_output cmap r = Except.ok (out, s')) :
    (out.fgcolor = FgColor.w ↔ sumFirst3 out.bgcolor < 384) ∧
    (out.fgcolor = FgColor.k ↔ 384 ≤ sumFirst3 out.bgcolor) := by
  have hcalc := element_display_output_ok_elim cmap s r out s' h
  obtain ⟨confVal, noData, hsc, hn, hcase⟩ :=
    element_display_calc_ok_elim cmap s.show_confidence s.text_format r out
      hcalc
  rcases hcase with ⟨hb, _⟩ | ⟨hb, color, text, hbc, hft, hout⟩
  · rw [hb] at hn; exact absurd hn hnd
  · subst hout
    constructor
    · by_cases hlt : sumFirst3 color < 384 <;> simp [hlt]
    · by_cases hlt : sumFirst3 color < 384
      · simp [hlt, not_le.mpr hlt]
      · simp [hlt, not_lt.mp hlt]

def cmapC3 : List (String × FieldVal) → Color := fun _ => [100, 100, 100, 255]

def dfC3 : DisplayFilter :=
  { output := none, text_format := "",
    show_confidence := "cp_confidence_interval", log_scale := false,
    color_fields := ["connection_probability"],
    color_by := "connection_probability" }

def resC3 : ResultDict :=
  [("no_data", FieldVal.boolean false),
   ("cp_confidence_interval", FieldVal.null),
   ("connection_probability", FieldVal.num (1/4))]

def outC3val : ElementOutput :=
  { bordercolor := 4/5, bgcolor := [100, 100, 100, 255],
    fgcolor := FgColor.w, text := "" }

/-- Witness for C3 at a concrete configuration and result. -/
theorem C3_fgcolor_contrast_witness :
    (lookupField resC3 "no_data" ≠ Except.ok (FieldVal.boolean true)) ∧
    ((outC3val.fgcolor = FgColor.w ↔ sumFirst3 outC3val.bgcolor < 384) ∧
     (outC3val.fgcolor = FgColor.k ↔ 384 ≤ sumFirst3 outC3val.bgcolor)) :=
  ⟨by decide,
   C3_fgcolor_contrast cmapC3 dfC3 resC3 outC3val
     { dfC3 with output := some outC3val } (by decide)
     (by simp [DisplayFilter.element_display_output, element_display_calc,
           blendConfidence, lookupField, mappableResult, isScalarVal,
           formatTemplate, formatAux, sumFirst3, resC3, dfC3, cmapC3,
           outC3val, default_bgcolor_noconf]
         norm_num
         rfl)⟩

/-- Claim C4: for a result carrying a confidence-interval field of width
in [0,1] (and not flagged `no_data`), the displayed background equals
`base * confidence + neutral * (1 - confidence)` with
`confidence = (1 - (upper - lower)) ^ 2`; a zero-width interval returns
the unmodified base color and a maximal-width interval returns the
neutral default color. -/
theorem C4_confidence_blend (cmap : List (String × FieldVal) → Color)
    (s : DisplayFilter) (r : ResultDict) (lo hi : ℚ) (out : ElementOutput)
    (s' : DisplayFilter)
    (hconf : lookupField r s.show_confidence =
      Except.ok (FieldVal.interval lo hi))
    (hnd : lookupField r "no_data" = Except.ok (FieldVal.boolean false))
    (_hw0 : 0 ≤ hi - lo) (_hw1 : hi - lo ≤ 1)
    (hlen : (cmap (mappableResult r)).length = 4)
    (h : s.element_display_output cmap r = Except.ok (out, s')) :
    out.bgcolor =
      addColor (scaleColor (cmap (mappableResult r)) ((1 - (hi - lo)) ^ 2))
        (scaleColor default_bgcolor_conf (1 - (1 - (hi - lo)) ^ 2)) ∧
    (hi = lo → out.bgcolor = cmap (mappableResult r)) ∧
    (hi - lo = 1 → out.bgcolor = default_bgcolor_conf) := by
  have hcalc := element_display_output_ok_elim cmap s r out s' h
  obtain ⟨confVal, noData, hsc, hn, hcase⟩ :=
    element_display_calc_ok_elim cmap s.show_confidence s.text_format r out
      hcalc
  have hcv : confVal = FieldVal.interval lo hi := by
    rw [hconf] at hsc; cases hsc; rfl
  have hnv : noData = FieldVal.boolean false := by
    rw [hnd] at hn; cases hn; rfl
  subst hcv; subst hnv
  rcases hcase with ⟨hb, _⟩ | ⟨_, color, text, hbc, hft, hout⟩
  · cases hb
  · subst hout
    have hmain : color =
        addColor (scaleColor (cmap (mappableResult r)) ((1 - (hi - lo)) ^ 2))
          (scaleColor default_bgcolor_conf (1 - (1 - (hi - lo)) ^ 2)) := by
      rw [show (if FieldVal.interval lo hi ≠ FieldVal.null then
            default_bgcolor_conf else default_bgcolor_noconf) =
          default_bgcolor_conf by simp] at hbc
      unfold blendConfidence at hbc
      rw [if_neg (by simp)] at hbc
      dsimp only at hbc
      cases hbc
      rfl
    refine ⟨hmain, ?_, ?_⟩
    · intro heq
      have hz : hi - lo = 0 := by rw [heq]; ring
      show color = cmap (mappableResult r)
      rw [hmain, hz]
      norm_num [scaleColor_one]
      rw [scaleColor_zero,
        show default_bgcolor_conf.length = (cmap (mappableResult r)).length by
          simp [hlen, default_bgcolor_conf]]
      exact addColor_zero_right _
    · intro heq
      show color = default_bgcolor_conf
      rw [hmain, heq]
      norm_num [scaleColor_one, scaleColor_zero]
      rw [show (cmap (mappableResult r)).length = default_bgcolor_conf.length by
          simp [hlen, default_bgcolor_conf]]
      exact addColor_zero_left _

def cmapC4 : List (String × FieldVal) → Color := fun _ => [100, 100, 100, 255]

def dfC4 : DisplayFilter :=
  { output := none, text_format := "",
    show_confidence := "cp_confidence_interval", log_scale := false,
    color_fields := ["connection_probability"],
    color_by := "connection_probability" }

def resC4 : ResultDict :=
  [("no_data", FieldVal.boolean false),
   ("cp_confidence_interval", FieldVal.interval 0 0),
   ("connection_probability", FieldVal.num (1/4))]

def outC4val : ElementOutput :=
  { bordercolor := 3/5, bgcolor := [100, 100, 100, 255],
    fgcolor := FgColor.w, text := "" }

/-- Witness for C4 at a concrete configuration and result with a
zero-width confidence interval. -/
theorem C4_confidence_blend_witness :
    (lookupField resC4 dfC4.show_confidence =
      Except.ok (FieldVal.interval 0 0)) ∧
    ((0:ℚ) ≤ 0 - 0) ∧ ((0:ℚ) - 0 ≤ 1) ∧
    ((cmapC4 (mappableResult resC4)).length = 4) ∧
    (outC4val.bgcolor =
      addColor (scaleColor (cmapC4 (mappableResult resC4))
          ((1 - ((0:ℚ) - 0)) ^ 2))
        (scaleColor default_bgcolor_conf (1 - (1 - ((0:ℚ) - 0)) ^ 2)) ∧
     ((0:ℚ) = 0 → outC4val.bgcolor = cmapC4 (mappableResult resC4)) ∧
     ((0:ℚ) - 0 = 1 → outC4val.bgcolor = default_bgcolor_conf)) :=
  ⟨by decide, by norm_num, by norm_num, by decide,
   C4_confidence_blend cmapC4 dfC4 resC4 0 0 outC4val
     { dfC4 with output := some outC4val } (by decide) (by decide)
     (by norm_num) (by norm_num) (by decide)
     (by simp [DisplayFilter.element_display_output, element_display_calc,
           blendConfidence, lookupField, mappableResult, isScalarVal,
           formatTemplate, formatAux, sumFirst3, resC4, dfC4, cmapC4,
           outC4val, default_bgcolor_conf, scaleColor, addColor]
         norm_num
         rfl)⟩

/-- Claim C7: for every result with `no_data` set, the display mapping
returns a fixed neutral gray background, the muted foreground 0.6, empty
text and one of the two border-opacity constants, and performs no
color-mapping: the output does not depend on the color-scale provider. -/
theorem C7_no_data_display (cmap cmap' : List (String × FieldVal) → Color)
    (s : DisplayFilter) (r : ResultDict) (confVal : FieldVal)
    (hcv : lookupField r s.show_confidence = Except.ok confVal)
    (hnd : lookupField r "no_data" = Except.ok (FieldVal.boolean true)) :
    ∃ out s', s.element_display_output cmap r = Except.ok (out, s') ∧
      out.text = "" ∧
      out.fgcolor = FgColor.shade (3/5) ∧
      (out.bgcolor = default_bgcolor_conf ∨
       out.bgcolor = default_bgcolor_noconf) ∧
      (out.bordercolor = 3/5 ∨ out.bordercolor = 4/5) ∧
      s.element_display_output cmap' r = s.element_display_output cmap r := by
  refine ⟨noDataOutput confVal, { s with output := some (noDataOutput confVal) },
    ?_, rfl, rfl, ?_, ?_, ?_⟩
  · unfold DisplayFilter.element_display_output
    rw [element_display_calc_no_data cmap s.show_confidence s.text_format r
      confVal hcv hnd]
    rfl
  · unfold noDataOutput
    by_cases hc : confVal = FieldVal.null <;> simp [hc]
  · unfold noDataOutput
    by_cases hc : confVal = FieldVal.null <;> simp [hc]
  · unfold DisplayFilter.element_display_output
    rw [element_display_calc_no_data cmap s.show_confidence s.text_format r
        confVal hcv hnd,
      element_display_calc_no_data cmap' s.show_confidence s.text_format r
        confVal hcv hnd]

def cmapC7 : List (String × FieldVal) → Color := fun _ => [1, 2, 3, 4]

def cmapC7' : List (String × FieldVal) → Color := fun _ => [9, 9, 9, 9]

def dfC7 : DisplayFilter :=
  { output := none, text_format := "\x7bconnection_probability\x7d",
    show_confidence := "cp_confidence_interval", log_scale := false,
    color_fields := ["connection_probability"],
    color_by := "connection_probability" }

def resC7 : ResultDict :=
  [("no_data", FieldVal.boolean true),
   ("cp_confidence_interval", FieldVal.null)]

/-- Witness for C7 at a concrete configuration and a `no_data` result. -/
theorem C7_no_data_display_witness :
    (lookupField resC7 dfC7.show_confidence = Except.ok FieldVal.null) ∧
    (lookupField resC7 "no_data" = Except.ok (FieldVal.boolean true)) ∧
    (∃ out s', dfC7.element_display_output cmapC7 resC7 =
        Except.ok (out, s') ∧
      out.text = "" ∧
      out.fgcolor = FgColor.shade (3/5) ∧
      (out.bgcolor = default_bgcolor_conf ∨
       out.bgcolor = default_bgcolor_noconf) ∧
      (out.bordercolor = 3/5 ∨ out.bordercolor = 4/5) ∧
      dfC7.element_display_output cmapC7' resC7 =
        dfC7.element_display_output cmapC7 resC7) :=
  ⟨by decide, by decide,
   C7_no_data_display cmapC7 cmapC7' dfC7 resC7 FieldVal.null
     (by decide) (by decide)⟩

def fieldsC6 : DisplayFields :=
  { color_by := ["connection_probability"],
    show_confidence := ["cp_confidence_interval", "None"] }

def defaultsC6 : FieldDefaults :=
  { color_by := "connection_probability", text := "\x7bbogus\x7d",
    show_confidence := "cp_confidence_interval", log := false }

def dfC6base : DisplayFilter :=
  { output := none, text_format := "",
    show_confidence := "cp_confidence_interval", log_scale := false,
    color_fields := [], color_by := "" }

def dfC6 : DisplayFilter := dfC6base.set_display_fields fieldsC6 defaultsC6

def resC6 : ResultDict :=
  [("no_data", FieldVal.boolean false),
   ("cp_confidence_interval", FieldVal.null),
   ("connection_probability", FieldVal.num (1/4))]

def cmapC6 : List (String × FieldVal) → Color := fun _ => [10, 20, 30, 255]

/-- Claim C6 counterexample: configuring the template `{bogus}` — a field
absent from the result mapping — succeeds at template-set time (the
template is stored verbatim), and the failure only surfaces at render
time, when `element_display_output` formats the cell text and raises the
missing-field `KeyError`. This refutes the claim that the configuration
fails eagerly at template-set time. -/
theorem C6_counterexample :
    dfC6.text_format = "\x7bbogus\x7d" ∧
    dfC6.element_display_output cmapC6 resC6 =
      Except.error "KeyError: bogus" := by
  exact ⟨rfl, rfl⟩

/-- Claim C6 (amended): a template referencing an unknown field is
accepted at template-set time — `set_display_fields` stores the template
unvalidated — and the error surfaces at render time: whenever formatting
the template against the result fails, `element_display_output` raises
that formatting error (for every cell it is called on). -/
theorem C6_template_error_at_render (df : DisplayFilter)
    (flds : DisplayFields) (dfl : FieldDefaults)
    (cmap : List (String × FieldVal) → Color) (s : DisplayFilter)
    (r : ResultDict) (e : String) (confVal : FieldVal) (c : Color)
    (hsc : lookupField r s.show_confidence = Except.ok confVal)
    (hnd : lookupField r "no_data" = Except.ok (FieldVal.boolean false))
    (hbc : blendConfidence confVal (cmap (mappableResult r))
        (if confVal ≠ FieldVal.null then default_bgcolor_conf
         else default_bgcolor_noconf) = Except.ok c)
    (hft : formatTemplate s.text_format r = Except.error e) :
    (df.set_display_fields flds dfl).text_format = dfl.text ∧
    s.element_display_output cmap r = Except.error e := by
  refine ⟨rfl, ?_⟩
  unfold DisplayFilter.element_display_output element_display_calc
  rw [hsc]
  dsimp only
  rw [hnd]
  dsimp only
  rw [if_neg (by simp)]
  rw [hbc]
  dsimp only
  rw [hft]
  rfl

/-- Witness for the amended C6 at the concrete bad template. -/
theorem C6_template_error_at_render_witness :
    (lookupField resC6 dfC6.show_confidence = Except.ok FieldVal.null) ∧
    (lookupField resC6 "no_data" = Except.ok (FieldVal.boolean false)) ∧
    (blendConfidence FieldVal.null (cmapC6 (mappableResult resC6))
      (if FieldVal.null ≠ FieldVal.null then default_bgcolor_conf
       else default_bgcolor_noconf) =
      Except.ok (cmapC6 (mappableResult resC6))) ∧
    (formatTemplate dfC6.text_format resC6 =
      Except.error "KeyError: bogus") ∧
    ((dfC6base.set_display_fields fieldsC6 defaultsC6).text_format =
      defaultsC6.text ∧
     dfC6.element_display_output cmapC6 resC6 =
      Except.error "KeyError: bogus") :=
  ⟨rfl, rfl, rfl, rfl,
   C6_template_error_at_render dfC6base fieldsC6 defaultsC6 cmapC6 dfC6
     resC6 "KeyError: bogus" FieldVal.null (cmapC6 (mappableResult resC6))
     rfl rfl rfl rfl⟩

def outC5dummy : ElementOutput :=
  { bordercolor := 0, bgcolor := [], fgcolor := FgColor.k, text := "stale" }

def dfC5 : DisplayFilter :=
  { output := some outC5dummy, text_format := "",
    show_confidence := "ci", log_scale := false,
    color_fields := [], color_by := "" }

def resC5 : ResultDict :=
  [("no_data", FieldVal.boolean true), ("ci", FieldVal.null)]

def cmapC5 : List (String × FieldVal) → Color := fun _ => [0, 0, 0, 0]

/-- Claim C5 counterexample: the DisplayFilter node does not obey "the
recompute rule runs only when the cache is absent": with a cached output
present, reading runs the recompute rule anyway and returns a freshly
computed value different from the cached one (the cached value is never
consulted by `element_display_output`). -/
theorem C5_counterexample :
    dfC5.output = some outC5dummy ∧
    dfC5.element_display_output cmapC5 resC5 =
      Except.ok (noDataOutput FieldVal.null,
        { dfC5 with output := some (noDataOutput FieldVal.null) }) ∧
    noDataOutput FieldVal.null ≠ outC5dummy := by
  refine ⟨rfl, rfl, ?_⟩
  intro h
  have ht := congrArg ElementOutput.text h
  simp [noDataOutput, outC5dummy] at ht

/-- Claim C5 (amended): for the ExperimentFilter and CellClassFilter
nodes, reading twice without an intervening invalidation returns the
identical cached value and state, and invalidating then reading recomputes
from the current upstream input and current configuration; the
DisplayFilter node, in contrast, recomputes on every read — its returned
value never depends on the cached output. -/
theorem C5_cache_semantics (dbase : List PairRec) (s : ExperimentFilter)
    (cg : String → List (List (String × String)))
    (cls : List CellClass → List PairRec → CellGroups)
    (pairs : List PairRec) (t : CellClassFilter)
    (cmap : List (String × FieldVal) → Color) (d : DisplayFilter)
    (r : ResultDict) (o : Option ElementOutput) :
    (ExperimentFilter.get_pair_list dbase
        (ExperimentFilter.get_pair_list dbase s).2 =
      ExperimentFilter.get_pair_list dbase s) ∧
    ((ExperimentFilter.get_pair_list dbase (s.invalidate_output).1).1 =
      query_pairs (noneIfEmpty (selectedNames s.projects))
        (noneIfEmpty (selectedNames s.acsf))
        (noneIfEmpty (selectedNames s.internal)) dbase) ∧
    (CellClassFilter.get_cell_groups cg cls pairs
        (CellClassFilter.get_cell_groups cg cls pairs t).2 =
      CellClassFilter.get_cell_groups cg cls pairs t) ∧
    ((CellClassFilter.get_cell_groups cg cls pairs
        (t.invalidate_output).1).1 =
      (some (cls (((t.selection.filter (fun p => p.2 = true)).flatMap
          (fun g => cg g.1)).map CellClass.mk) pairs),
       some (((t.selection.filter (fun p => p.2 = true)).flatMap
          (fun g => cg g.1)).map CellClass.mk))) ∧
    ((DisplayFilter.element_display_output cmap { d with output := o } r).map
        Prod.fst =
      (DisplayFilter.element_display_output cmap d r).map Prod.fst) := by
  refine ⟨?_, ?_, ?_, ?_, ?_⟩
  · cases hp : s.pairs with
    | some p => simp [ExperimentFilter.get_pair_list, hp]
    | none => simp [ExperimentFilter.get_pair_list, hp]
  · rfl
  · cases hg : t.cell_groups with
    | some g => simp [CellClassFilter.get_cell_groups, hg]
    | none => simp [CellClassFilter.get_cell_groups, hg]
  · rfl
  · cases hc : element_display_calc cmap d.show_confidence d.text_format r with
    | error e => simp [DisplayFilter.element_display_output, hc]
    | ok out => simp [DisplayFilter.element_display_output, hc]

/-- The boolean test one filter dimension applies inside `query_pairs`,
as an explicit proposition: an empty selection restricts nothing. -/
lemma matchOpt_iff (sel : List (String × Bool)) (v : String) :
    ((match noneIfEmpty (selectedNames sel) with
      | none => true
      | some l => l.contains v) = true) ↔
    (selectedNames sel = [] ∨ v ∈ selectedNames sel) := by
  unfold noneIfEmpty
  by_cases h : (selectedNames sel).length > 0
  · rw [if_pos h]
    have hne : selectedNames sel ≠ [] := by
      intro he; rw [he] at h; simp at h
    simp [hne]
  · rw [if_neg h]
    have he : selectedNames sel = [] := by
      rw [← List.length_eq_zero]; omega
    simp [he]

/-- Claim C8: with the pair cache absent, a filter dimension on which no
value is checked restricts nothing: membership in the returned pair list
requires agreement only on the dimensions with a nonempty selection, so an
empty selection returns pairs from all records on that dimension. -/
theorem C8_empty_selection_no_restriction (dbase : List PairRec)
    (s : ExperimentFilter) (r : PairRec) (hcache : s.pairs = none) :
    r ∈ (ExperimentFilter.get_pair_list dbase s).1 ↔
      r ∈ dbase ∧
      (selectedNames s.projects = [] ∨
        r.project_name ∈ selectedNames s.projects) ∧
      (selectedNames s.acsf = [] ∨ r.acsf ∈ selectedNames s.acsf) ∧
      (selectedNames s.internal = [] ∨
        r.internal ∈ selectedNames s.internal) := by
  unfold ExperimentFilter.get_pair_list
  rw [hcache]
  dsimp only
  unfold query_pairs
  rw [List.mem_filter]
  simp only [Bool.and_eq_true]
  rw [matchOpt_iff s.projects r.project_name, matchOpt_iff s.acsf r.acsf,
    matchOpt_iff s.internal r.internal]
  tauto

def dbC8 : List PairRec :=
  [{ recId := 0, project_name := "mouse V1 coarse matrix",
     acsf := "standard", internal := "ki" },
   { recId := 1, project_name := "human coarse matrix",
     acsf := "standard", internal := "ki" }]

def sC8 : ExperimentFilter :=
  { projects := [("mouse V1 coarse matrix", false),
                 ("human coarse matrix", false)],
    acsf := [("standard", true)], internal := [], pairs := none }

def rC8 : PairRec :=
  { recId := 1, project_name := "human coarse matrix",
    acsf := "standard", internal := "ki" }

/-- Witness for C8: with no project checked, a record whose project name
is not checked anywhere is still returned when the other dimensions
match. -/
theorem C8_empty_selection_no_restriction_witness :
    sC8.pairs = none ∧
    (rC8 ∈ (ExperimentFilter.get_pair_list dbC8 sC8).1 ↔
      rC8 ∈ dbC8 ∧
      (selectedNames sC8.projects = [] ∨
        rC8.project_name ∈ selectedNames sC8.projects) ∧
      (selectedNames sC8.acsf = [] ∨ rC8.acsf ∈ selectedNames sC8.acsf) ∧
      (selectedNames sC8.internal = [] ∨
        rC8.internal ∈ selectedNames sC8.internal)) :=
  ⟨rfl, C8_empty_selection_no_restriction dbC8 sC8 rC8 rfl⟩

def classC1 : CellClass :=
  CellClass.mk [("cre_type", "pvalb"), ("target_layer", "2/3")]

def rtC1 : ResultsTable :=
  [((classC1, classC1),
    [("no_data", FieldVal.boolean false),
     ("connection_probability", FieldVal.num (1/10)),
     ("cp_confidence_interval", FieldVal.interval (1/20) (3/20))])]

def outC1 : ElementOutput :=
  { bordercolor := 3/5, bgcolor := [128, 128, 128, 255],
    fgcolor := FgColor.w, text := "1/10" }

def prC1 : PairRec :=
  { recId := 1, project_name := "mouse V1 coarse matrix",
    acsf := "standard", internal := "ki" }

def maC1 : MatrixAnalyzer :=
  { experiment_filter :=
      { projects := [("mouse V1 coarse matrix", true)], acsf := [],
        internal := [],
        pairs := some [prC1] },
    cell_class_filter :=
      { selection := [("Mouse All Cre-types by layer", true)],
        cell_groups := some [(classC1, [1])],
        cell_classes := some [classC1] },
    display_filter :=
      { output := some outC1, text_format := "",
        show_confidence := "cp_confidence_interval", log_scale := false,
        color_fields := ["connection_probability"],
        color_by := "connection_probability" },
    analysis := some { instId := 0, name := "Connectivity",
                       results := some rtC1 },
    results := some rtC1,
    edges := [(EdgeKind.analysisToDf, 0), (EdgeKind.ccfToAnalysis, 0)],
    nextId := 1 }

/-- Claim C1, evaluated on the code at the failing input: starting from a
fully populated, fully wired state, a configuration change on the
experiment filter clears the experiment filter's and the cell class
filter's caches, but — because `CellClassFilter.invalidate_output` never
emits `sigOutputChanged` — the connected analyzer listener never fires,
so the analyzer's cached result table and the display filter's cached
output are still present afterwards, contrary to the claimed recursive
downstream invalidation. -/
theorem C1_invalidation_stops_at_cell_class_filter :
    (dispatchEf maC1).experiment_filter.pairs = none ∧
    (dispatchEf maC1).cell_class_filter.cell_groups = none ∧
    (dispatchEf maC1).cell_class_filter.cell_classes = none ∧
    (dispatchEf maC1).analysis =
      some { instId := 0, name := "Connectivity", results := some rtC1 } ∧
    (dispatchEf maC1).display_filter.output = some outC1 :=
  ⟨rfl, rfl, rfl, rfl, rfl⟩

def classC2 : CellClass :=
  CellClass.mk [("cre_type", "sst"), ("target_layer", "5")]

def rtC2 : ResultsTable :=
  [((classC2, classC2),
    [("no_data", FieldVal.boolean false),
     ("connection_probability", FieldVal.num (1/10))])]

def connC2 : AnalyzerClass :=
  { fields := { color_by := ["connection_probability"],
                show_confidence := ["cp_confidence_interval", "None"] },
    defaults := { color_by := "connection_probability",
                  text := "\x7bn_connected\x7d/\x7bn_probed\x7d",
                  show_confidence := "cp_confidence_interval",
                  log := true } }

def strengthC2 : AnalyzerClass :=
  { fields := { color_by := ["amp_mean"], show_confidence := ["None"] },
    defaults := { color_by := "amp_mean", text := "\x7bamp_mean\x7d",
                  show_confidence := "None", log := false } }

def dynC2 : AnalyzerClass :=
  { fields := { color_by := ["pulse_ratio_8_1_50hz"],
                show_confidence := ["None"] },
    defaults := { color_by := "pulse_ratio_8_1_50hz",
                  text := "\x7bpulse_ratio_8_1_50hz\x7d",
                  show_confidence := "None", log := false } }

def maC2 : MatrixAnalyzer :=
  { experiment_filter :=
      { projects := [("mouse V1 coarse matrix", true)], acsf := [],
        internal := [], pairs := none },
    cell_class_filter :=
      { selection := [("Mouse Layer 5", true)], cell_groups := none,
        cell_classes := none },
    display_filter :=
      { output := none, text_format := "\x7bn_connected\x7d",
        show_confidence := "cp_confidence_interval", log_scale := true,
        color_fields := ["connection_probability"],
        color_by := "connection_probability" },
    analysis := some { instId := 0, name := "Connectivity",
                       results := some rtC2 },
    results := some rtC2,
    edges := [(EdgeKind.analysisToDf, 0), (EdgeKind.ccfToAnalysis, 0)],
    nextId := 1 }

/-- Claim C2 counterexample: switching the active analyzer from
Connectivity to Dynamics leaves the engine-level cached Matrix Element
Result table (`self.results`, computed by the previous analyzer) in
place — `analyzerChanged` never clears it — so a result table computed by
a different analyzer is retained for display until the next full update. -/
theorem C2_counterexample :
    (MatrixAnalyzer.analyzerChanged connC2 strengthC2 dynC2 "Dynamics"
      maC2).map (fun s => s.results) = some (some rtC2) := rfl

/-- Claim C2 (amended): switching the active analyzer disconnects the old
analyzer instance's listener edges and connects the new instance's edges,
installs a fresh analyzer instance whose own result cache is empty, and
re-derives the display field options from the new analyzer's
`output_fields()` — but it does not discard the engine-level cached result
table `self.results`, which still holds the previous analyzer's results. -/
theorem C2_analyzer_swap_rewires_but_keeps_results
    (conn strength dynamics : AnalyzerClass) (selected : String)
    (s : MatrixAnalyzer) (cls : AnalyzerClass) (old : AnalyzerInstance)
    (hreg : available_analyzers conn strength dynamics selected = some cls)
    (hold : s.analysis = some old) (hfresh : old.instId < s.nextId) :
    ∃ s', MatrixAnalyzer.analyzerChanged conn strength dynamics selected s =
        some s' ∧
      (∀ k : EdgeKind, (k, old.instId) ∉ s'.edges) ∧
      (EdgeKind.ccfToAnalysis, s.nextId) ∈ s'.edges ∧
      (EdgeKind.analysisToDf, s.nextId) ∈ s'.edges ∧
      s'.analysis = some { instId := s.nextId, name := selected,
                           results := none } ∧
      s'.display_filter.color_fields = cls.fields.color_by ∧
      s'.display_filter.color_by = cls.defaults.color_by ∧
      s'.display_filter.text_format = cls.defaults.text ∧
      s'.display_filter.show_confidence = cls.defaults.show_confidence ∧
      s'.display_filter.log_scale = cls.defaults.log ∧
      s'.results = s.results := by
  unfold MatrixAnalyzer.analyzerChanged
  rw [hold]
  dsimp only
  rw [hreg]
  dsimp only
  refine ⟨_, rfl, ?_, ?_, ?_, rfl, rfl, rfl, rfl, rfl, rfl, rfl⟩
  · intro k hk
    rcases List.mem_cons.mp hk with h1 | hk
    · have h2 : old.instId = s.nextId := congrArg Prod.snd h1
      omega
    rcases List.mem_cons.mp hk with h1 | hk
    · have h2 : old.instId = s.nextId := congrArg Prod.snd h1
      omega
    · have h2 := (List.mem_filter.mp hk).2
      simp at h2
  · exact List.mem_cons_of_mem _ (List.mem_cons_self _ _)
  · exact List.mem_cons_self _ _

/-- Witness for the amended C2 at the concrete swap from Connectivity to
Dynamics. -/
theorem C2_analyzer_swap_rewires_but_keeps_results_witness :
    (available_analyzers connC2 strengthC2 dynC2 "Dynamics" = some dynC2) ∧
    (maC2.analysis = some { instId := 0, name := "Connectivity",
                            results := some rtC2 }) ∧
    ((0:Nat) < maC2.nextId) ∧
    (∃ s', MatrixAnalyzer.analyzerChanged connC2 strengthC2 dynC2 "Dynamics"
        maC2 = some s' ∧
      (∀ k : EdgeKind, (k, (0:Nat)) ∉ s'.edges) ∧
      (EdgeKind.ccfToAnalysis, maC2.nextId) ∈ s'.edges ∧
      (EdgeKind.analysisToDf, maC2.nextId) ∈ s'.edges ∧
      s'.analysis = some { instId := maC2.nextId, name := "Dynamics",
                           results := none } ∧
      s'.display_filter.color_fields = dynC2.fields.color_by ∧
      s'.display_filter.color_by = dynC2.defaults.color_by ∧
      s'.display_filter.text_format = dynC2.defaults.text ∧
      s'.display_filter.show_confidence = dynC2.defaults.show_confidence ∧
      s'.display_filter.log_scale = dynC2.defaults.log ∧
      s'.results = maC2.results) :=
  ⟨rfl, rfl, by decide,
   C2_analyzer_swap_rewires_but_keeps_results connC2 strengthC2 dynC2
     "Dynamics" maC2 dynC2
     { instId := 0, name := "Connectivity", results := some rtC2 }
     rfl rfl (by decide)⟩

lemma mapExcept_ok_map {α β : Type} (f : α → Except String β)
    (g : α → β) (hf : ∀ x, f x = Except.ok (g x)) :
    ∀ l : List α, mapExcept f l = Except.ok (l.map g) := by
  intro l
  induction l with
  | nil => rfl
  | cons x xs ih => simp [mapExcept, hf x, ih]

lemma mapExcept_error_head {α β : Type} (f : α → Except String β)
    (x : α) (xs : List α) (e : String) (hx : f x = Except.error e) :
    mapExcept f (x :: xs) = Except.error e := by
  simp [mapExcept, hx]

lemma mapExcept_length {α β : Type} (f : α → Except String β) :
    ∀ (l : List α) (out : List β), mapExcept f l = Except.ok out →
      out.length = l.length := by
  intro l
  induction l with
  | nil =>
    intro out h
    cases h
    rfl
  | cons x xs ih =>
    intro out h
    unfold mapExcept at h
    cases hx : f x with
    | error e => rw [hx] at h; cases h
    | ok b =>
      rw [hx] at h
      cases hxs : mapExcept f xs with
      | error e => rw [hxs] at h; cases h
      | ok bs =>
        rw [hxs] at h
        cases h
        simp [ih bs hxs]

lemma bsubApplied_t0 (series : String) (bsub : Bool) (w : ℚ × ℚ)
    (sr : StimResponse) :
    (bsubApplied series bsub w sr).t0 = (sr.series_tseries series).t0 := by
  unfold bsubApplied TSeries.subConst
  by_cases hb : bsub <;> simp [hb]

lemma processOne_recognized (series : String) (bsub : Bool) (a : String)
    (w : ℚ × ℚ) (sr : StimResponse) (ha : a = "stim" ∨ a = "spike") :
    processOne series bsub (some a) w sr =
      Except.ok ((bsubApplied series bsub w sr).copyT0
        ((bsubApplied series bsub w sr).t0 - alignTime a sr)) := by
  rcases ha with h | h <;> subst h <;> simp [processOne, alignTime]

lemma processOne_invalid (series : String) (bsub : Bool) (a : String)
    (w : ℚ × ℚ) (sr : StimResponse) (ha1 : a ≠ "stim")
    (ha2 : a ≠ "spike") :
    processOne series bsub (some a) w sr =
      Except.error ("invalid time alignment mode \x27" ++ a ++ "\x27") := by
  simp [processOne, ha1, ha2]

def srC9 : StimResponse :=
  { stim_tseries := { t0 := 0, dt := 1/1000, data := [0, 1, 2, 1, 0] },
    pre_tseries := { t0 := 0, dt := 1/1000, data := [0, 0, 1, 0, 0] },
    post_tseries := { t0 := 0, dt := 1/1000, data := [0, 0, 0, 1, 0] },
    stim_pulse := { onset_time := 2/1000,
                    stim_spike := { max_dvdt_time := 3/1000 } } }

/-- Claim C9 counterexample: the raised message names the invalid value
but does not identify the allowed set — neither `stim` nor `spike` occurs
in it — and with an empty record list an invalid alignment mode raises no
error at all (the check sits inside the per-record loop). -/
theorem C9_counterexample :
    StimResponseList.get_tseries [] "stim" true (some "foo")
      (-(3/1000), 0) = Except.ok [] ∧
    StimResponseList.get_tseries [srC9] "stim" true (some "foo")
      (-(3/1000), 0) =
      Except.error "invalid time alignment mode \x27foo\x27" ∧
    hasSubstr "stim".data
      "invalid time alignment mode \x27foo\x27".data = false ∧
    hasSubstr "spike".data
      "invalid time alignment mode \x27foo\x27".data = false := by
  refine ⟨rfl, rfl, by decide, by decide⟩

/-- Claim C9 (amended): for a valid series argument, an alignment mode
other than `stim` and `spike` (and other than no alignment) makes
`get_tseries` raise a ValueError naming the invalid value — the allowed
modes are not listed in the message — provided at least one record is
processed; the recognized modes raise nothing and shift each returned
trace so that its alignment time becomes time zero. -/
theorem C9_alignment_modes (srs : List StimResponse) (series a : String)
    (bsub : Bool) (w : ℚ × ℚ)
    (hser : series = "stim" ∨ series = "pre" ∨ series = "post") :
    (a ≠ "stim" → a ≠ "spike" → srs ≠ [] →
      StimResponseList.get_tseries srs series bsub (some a) w =
        Except.error ("invalid time alignment mode \x27" ++ a ++ "\x27")) ∧
    ((a = "stim" ∨ a = "spike") →
      ∃ out, StimResponseList.get_tseries srs series bsub (some a) w =
          Except.ok out ∧
        out.length = (srs.take 10).length ∧
        ∀ i (hi : i < out.length) (hj : i < (srs.take 10).length),
          (out.get ⟨i, hi⟩).t0 =
            (((srs.take 10).get ⟨i, hj⟩).series_tseries series).t0 -
              alignTime a ((srs.take 10).get ⟨i, hj⟩)) := by
  constructor
  · intro h1 h2 h3
    unfold StimResponseList.get_tseries
    rw [if_pos hser]
    cases srs with
    | nil => exact absurd rfl h3
    | cons x xs =>
      rw [show (x :: xs).take 10 = x :: xs.take 9 from rfl]
      exact mapExcept_error_head _ x _ _
        (processOne_invalid series bsub a w x h1 h2)
  · intro ha
    refine ⟨(srs.take 10).map (fun sr =>
      (bsubApplied series bsub w sr).copyT0
        ((bsubApplied series bsub w sr).t0 - alignTime a sr)), ?_, ?_, ?_⟩
    · unfold StimResponseList.get_tseries
      rw [if_pos hser]
      exact mapExcept_ok_map _ _
        (fun sr => processOne_recognized series bsub a w sr ha) _
    · simp
    · intro i hi hj
      simp [List.get_eq_getElem, TSeries.copyT0, bsubApplied_t0]

/-- Witness for the amended C9 at a concrete record list, valid series,
and the recognized mode `stim`. -/
theorem C9_alignment_modes_witness :
    ("stim" = "stim" ∨ "stim" = "pre" ∨ "stim" = "post") ∧
    ((("stim":String) ≠ "stim" → ("stim":String) ≠ "spike" →
        [srC9] ≠ [] →
      StimResponseList.get_tseries [srC9] "stim" true (some "stim")
        (-(3/1000), 0) =
        Except.error
          ("invalid time alignment mode \x27" ++ "stim" ++ "\x27")) ∧
     ((("stim":String) = "stim" ∨ ("stim":String) = "spike") →
      ∃ out, StimResponseList.get_tseries [srC9] "stim" true (some "stim")
          (-(3/1000), 0) = Except.ok out ∧
        out.length = ([srC9].take 10).length ∧
        ∀ i (hi : i < out.length) (hj : i < ([srC9].take 10).length),
          (out.get ⟨i, hi⟩).t0 =
            ((([srC9].take 10).get ⟨i, hj⟩).series_tseries "stim").t0 -
              alignTime "stim" (([srC9].take 10).get ⟨i, hj⟩))) :=
  ⟨Or.inl rfl,
   C9_alignment_modes [srC9] "stim" "stim" true (-(3/1000), 0)
     (Or.inl rfl)⟩

def srC10 : StimResponse :=
  { stim_tseries := { t0 := 0, dt := 1/1000, data := [0, 2, 0] },
    pre_tseries := { t0 := 0, dt := 1/1000, data := [0, 1, 0] },
    post_tseries := { t0 := 0, dt := 1/1000, data := [0, 0, 1] },
    stim_pulse := { onset_time := 1/1000,
                    stim_spike := { max_dvdt_time := 2/1000 } } }

/-- Claim C10: for every record list and valid series argument,
`get_tseries` is a function of the first 10 records only — the result is
unchanged when the list is truncated to its first 10 records — and a
successful result holds at most 10 traces. -/
theorem C10_first_ten_records_only (srs : List StimResponse)
    (series : String) (bsub : Bool) (align : Option String) (w : ℚ × ℚ)
    (hser : series = "stim" ∨ series = "pre" ∨ series = "post") :
    StimResponseList.get_tseries srs series bsub align w =
      StimResponseList.get_tseries (srs.take 10) series bsub align w ∧
    ∀ out, StimResponseList.get_tseries srs series bsub align w =
        Except.ok out → out.length ≤ 10 := by
  constructor
  · unfold StimResponseList.get_tseries
    rw [List.take_take]
    simp
  · intro out hout
    unfold StimResponseList.get_tseries at hout
    rw [if_pos hser] at hout
    have hlen := mapExcept_length _ _ _ hout
    rw [hlen, List.length_take]
    omega

/-- Witness for C10 at a concrete record list and the series `pre`. -/
theorem C10_first_ten_records_only_witness :
    ("pre" = "stim" ∨ "pre" = "pre" ∨ "pre" = "post") ∧
    (StimResponseList.get_tseries [srC10] "pre" true (some "stim")
        (-(3/1000), 0) =
      StimResponseList.get_tseries ([srC10].take 10) "pre" true
        (some "stim") (-(3/1000), 0) ∧
     ∀ out, StimResponseList.get_tseries [srC10] "pre" true (some "stim")
        (-(3/1000), 0) = Except.ok out → out.length ≤ 10) :=
  ⟨Or.inr (Or.inl rfl),
   C10_first_ten_records_only [srC10] "pre" true (some "stim")
     (-(3/1000), 0) (Or.inr (Or.inl rfl))⟩

end Multipatch
